import Mathlib

/-!
Verification of the `aioridewithgps` Python client against its design
specification.

Shallow embedding: each Python function of `client.py` is translated to a
Lean function.  JSON values are modelled by the inductive `Json`; Python
dictionaries become association lists; the `aiohttp` session becomes a
`Transport` function from requests to responses; Python exceptions become
the `Except Err` monad, where `Err` covers both the library's own
exception hierarchy (`exceptions.py`) and the Python built-ins `KeyError`
and `TypeError` that dictionary indexing and dataclass construction can
raise.  Dataclass fields hold raw `Json` values, because Python dataclass
type annotations are not enforced at runtime.
-/

/-- A JSON value, as produced by `resp.json()`. -/
inductive Json where
  | null
  | bool (b : Bool)
  | num (n : Int)
  | str (s : String)
  | arr (elems : List Json)
  | obj (fields : List (String × Json))

/-- First-match lookup in an association list (a Python dict). -/
def lookupField : List (String × Json) → String → Option Json
  | [], _ => none
  | (k, v) :: fs, key => if k == key then some v else lookupField fs key

/-- Python `d.get(key, default)`: the default is used only when the key is
absent (a present `null` value is returned as-is).  Only ever applied to
values already known to be objects. -/
def jGet : Json → String → Json → Json
  | .obj fs, k, d => (lookupField fs k).getD d
  | _, _, d => d

/-- Whether a JSON value is an object containing the given key. -/
def Json.memKey : Json → String → Bool
  | .obj fs, k => (lookupField fs k).isSome
  | _, _ => false

/-- Whether a JSON value is `null` (Python `x is None`). -/
def Json.isNull : Json → Bool
  | .null => true
  | _ => false

/-- Errors a client operation can surface.  The first four constructors
model the exception classes of `exceptions.py`; `keyError` and `typeError`
model the Python built-ins raised by `d[key]` on a missing key and by a
dataclass constructor invoked with a bad keyword set. -/
inductive Err where
  | authenticationError (msg : String)
  | forbiddenError (msg : String)
  | notFoundError (msg : String)
  | apiError (status : Nat) (message : String)
  | keyError (key : String)
  | typeError (msg : String)

/-- Python `d[key]`: raises `KeyError` on a missing key and `TypeError`
when the value is not a dictionary. -/
def jIndex : Json → String → Except Err Json
  | .obj fs, k =>
      match lookupField fs k with
      | some v => .ok v
      | none => .error (.keyError k)
  | _, k => .error (.typeError ("value is not subscriptable at key " ++ k))

/-- Python `data.get(key, [])` followed by iteration: yields the list of
elements, or `TypeError` when the value under the key is not a list. -/
def jGetList (data : Json) (k : String) : Except Err (List Json) :=
  match jGet data k (.arr []) with
  | .arr xs => .ok xs
  | _ => .error (.typeError ("value under key " ++ k ++ " is not iterable"))

/-- A Python list comprehension `[f(x) for x in xs]` over a fallible body:
elements are processed left to right and the first raised error aborts the
whole comprehension. -/
def parseEach {α : Type} (f : Json → Except Err α) : List Json → Except Err (List α)
  | [] => .ok []
  | x :: xs => do
      let a ← f x
      let as ← parseEach f xs
      .ok (a :: as)

/-! ## HTTP layer

An `aiohttp` session is modelled as a pure function from the request the
client builds to the response the server returns. -/

/-- The data the client supplies for one HTTP call. -/
structure HttpRequest where
  method : String
  url : String
  headers : List (String × String)
  params : List (String × Json)
  json_data : Option Json

/-- A server response: its status code, its JSON body (the result of
`resp.json()`) and its raw text (the result of `resp.text()`). -/
structure HttpResponse where
  status : Nat
  body : Json
  text : String

/-- The underlying transport (the `aiohttp.ClientSession`). -/
def Transport : Type := HttpRequest → HttpResponse

/-! ## Data models (`models.py`)

Field lists and their order follow `models.py` exactly.  Every field holds
a raw `Json` value: Python dataclasses do not check annotations at
runtime, so the parsed values are stored unchanged. -/

/-- The `User` dataclass. -/
structure User where
  id : Json
  email : Json
  first_name : Json
  last_name : Json
  display_name : Json
  created_at : Json
  updated_at : Json

/-- The `TripSummary` dataclass.  Note: its URL fields are `url` and
`web_url`; there is no `html_url` field. -/
structure TripSummary where
  id : Json
  user_id : Json
  name : Json
  distance : Json
  duration : Json
  moving_time : Json
  elevation_gain : Json
  elevation_loss : Json
  created_at : Json
  updated_at : Json
  visibility : Json
  stationary : Json
  description : Json
  departed_at : Json
  time_zone : Json
  locality : Json
  administrative_area : Json
  country_code : Json
  activity_type : Json
  avg_speed : Json
  max_speed : Json
  avg_hr : Json
  min_hr : Json
  max_hr : Json
  avg_cad : Json
  min_cad : Json
  max_cad : Json
  avg_watts : Json
  min_watts : Json
  max_watts : Json
  calories : Json
  first_lat : Json
  first_lng : Json
  last_lat : Json
  last_lng : Json
  sw_lat : Json
  sw_lng : Json
  ne_lat : Json
  ne_lng : Json
  track_type : Json
  terrain : Json
  difficulty : Json
  device : Json
  url : Json
  web_url : Json

/-- The `RouteSummary` dataclass. -/
structure RouteSummary where
  id : Json
  user_id : Json
  name : Json
  distance : Json
  elevation_gain : Json
  elevation_loss : Json
  created_at : Json
  updated_at : Json
  visibility : Json
  description : Json
  locality : Json
  administrative_area : Json
  country_code : Json
  first_lat : Json
  first_lng : Json
  last_lat : Json
  last_lng : Json
  sw_lat : Json
  sw_lng : Json
  ne_lat : Json
  ne_lng : Json
  track_type : Json
  terrain : Json
  difficulty : Json
  unpaved_pct : Json
  surface : Json
  archived : Json
  url : Json
  html_url : Json

/-- The `SyncItem` dataclass. -/
structure SyncItem where
  item_type : Json
  item_id : Json
  item_user_id : Json
  action : Json
  datetime : Json
  item_url : Json

/-- The `SyncResult` dataclass. -/
structure SyncResult where
  items : List SyncItem
  rwgps_datetime : Json
  next_sync_url : Json

/-- The `AuthToken` dataclass. -/
structure AuthToken where
  auth_token : Json
  api_key : Json
  user : User
  created_at : Json
  updated_at : Json

/-- The `PaginationMeta` dataclass. -/
structure PaginationMeta where
  record_count : Json
  page_count : Json
  page_size : Json
  next_page_url : Json

/-- The `PaginatedResult[T]` dataclass. -/
structure PaginatedResult (α : Type) where
  items : List α
  pagination : PaginationMeta

/-! ## Dataclass keyword-call semantics for the two summary dataclasses

`client.py` invokes `TripSummary(...)` and `RouteSummary(...)` with long
keyword-argument lists.  A Python dataclass `__init__` raises `TypeError`
when it receives a keyword that is not a declared field, or when a
required field (one without a default) is missing.  That call protocol is
modelled explicitly here: the call site passes an association list of
keyword arguments, and the constructor checks it against the dataclass's
declared field names before building the record.  (For the other
dataclasses every call site passes exactly the declared fields, so they
are constructed directly.) -/

/-- The declared field names of the `TripSummary` dataclass, in order. -/
def TripSummary.fieldNames : List String :=
  ["id", "user_id", "name", "distance", "duration", "moving_time",
   "elevation_gain", "elevation_loss", "created_at", "updated_at",
   "visibility", "stationary", "description", "departed_at", "time_zone",
   "locality", "administrative_area", "country_code", "activity_type",
   "avg_speed", "max_speed", "avg_hr", "min_hr", "max_hr", "avg_cad",
   "min_cad", "max_cad", "avg_watts", "min_watts", "max_watts",
   "calories", "first_lat", "first_lng", "last_lat", "last_lng",
   "sw_lat", "sw_lng", "ne_lat", "ne_lng", "track_type", "terrain",
   "difficulty", "device", "url", "web_url"]

/-- The `TripSummary` fields without a dataclass default (required). -/
def TripSummary.requiredNames : List String :=
  ["id", "user_id", "name", "distance", "duration", "moving_time",
   "elevation_gain", "elevation_loss", "created_at", "updated_at",
   "visibility"]

/-- Keyword lookup during dataclass construction: the passed value if
present, otherwise the dataclass default. -/
def kwArg (kwargs : List (String × Json)) (k : String) (dflt : Json) : Json :=
  (lookupField kwargs k).getD dflt

/-- The generated `TripSummary.__init__`: rejects unexpected keywords and
missing required fields with `TypeError`, otherwise builds the record,
filling unpassed optional fields from the dataclass defaults of
`models.py` (`stationary = False`, every other optional field `None`). -/
def TripSummary.construct (kwargs : List (String × Json)) : Except Err TripSummary :=
  if !(kwargs.all fun kv => TripSummary.fieldNames.contains kv.1) then
    .error (.typeError "TripSummary() got an unexpected keyword argument")
  else if !(TripSummary.requiredNames.all fun k => (lookupField kwargs k).isSome) then
    .error (.typeError "TripSummary() missing a required argument")
  else
    .ok {
      id := kwArg kwargs "id" .null
      user_id := kwArg kwargs "user_id" .null
      name := kwArg kwargs "name" .null
      distance := kwArg kwargs "distance" .null
      duration := kwArg kwargs "duration" .null
      moving_time := kwArg kwargs "moving_time" .null
      elevation_gain := kwArg kwargs "elevation_gain" .null
      elevation_loss := kwArg kwargs "elevation_loss" .null
      created_at := kwArg kwargs "created_at" .null
      updated_at := kwArg kwargs "updated_at" .null
      visibility := kwArg kwargs "visibility" .null
      stationary := kwArg kwargs "stationary" (.bool false)
      description := kwArg kwargs "description" .null
      departed_at := kwArg kwargs "departed_at" .null
      time_zone := kwArg kwargs "time_zone" .null
      locality := kwArg kwargs "locality" .null
      administrative_area := kwArg kwargs "administrative_area" .null
      country_code := kwArg kwargs "country_code" .null
      activity_type := kwArg kwargs "activity_type" .null
      avg_speed := kwArg kwargs "avg_speed" .null
      max_speed := kwArg kwargs "max_speed" .null
      avg_hr := kwArg kwargs "avg_hr" .null
      min_hr := kwArg kwargs "min_hr" .null
      max_hr := kwArg kwargs "max_hr" .null
      avg_cad := kwArg kwargs "avg_cad" .null
      min_cad := kwArg kwargs "min_cad" .null
      max_cad := kwArg kwargs "max_cad" .null
      avg_watts := kwArg kwargs "avg_watts" .null
      min_watts := kwArg kwargs "min_watts" .null
      max_watts := kwArg kwargs "max_watts" .null
      calories := kwArg kwargs "calories" .null
      first_lat := kwArg kwargs "first_lat" .null
      first_lng := kwArg kwargs "first_lng" .null
      last_lat := kwArg kwargs "last_lat" .null
      last_lng := kwArg kwargs "last_lng" .null
      sw_lat := kwArg kwargs "sw_lat" .null
      sw_lng := kwArg kwargs "sw_lng" .null
      ne_lat := kwArg kwargs "ne_lat" .null
      ne_lng := kwArg kwargs "ne_lng" .null
      track_type := kwArg kwargs "track_type" .null
      terrain := kwArg kwargs "terrain" .null
      difficulty := kwArg kwargs "difficulty" .null
      device := kwArg kwargs "device" .null
      url := kwArg kwargs "url" .null
      web_url := kwArg kwargs "web_url" .null }

/-- The declared field names of the `RouteSummary` dataclass, in order. -/
def RouteSummary.fieldNames : List String :=
  ["id", "user_id", "name", "distance", "elevation_gain",
   "elevation_loss", "created_at", "updated_at", "visibility",
   "description", "locality", "administrative_area", "country_code",
   "first_lat", "first_lng", "last_lat", "last_lng", "sw_lat", "sw_lng",
   "ne_lat", "ne_lng", "track_type", "terrain", "difficulty",
   "unpaved_pct", "surface", "archived", "url", "html_url"]

/-- The `RouteSummary` fields without a dataclass default (required). -/
def RouteSummary.requiredNames : List String :=
  ["id", "user_id", "name", "distance", "elevation_gain",
   "elevation_loss", "created_at", "updated_at", "visibility"]

/-- The generated `RouteSummary.__init__` (same protocol as
`TripSummary.construct`; every optional field of `models.py` defaults to
`None`, including the boolean-annotated `archived`). -/
def RouteSummary.construct (kwargs : List (String × Json)) : Except Err RouteSummary :=
  if !(kwargs.all fun kv => RouteSummary.fieldNames.contains kv.1) then
    .error (.typeError "RouteSummary() got an unexpected keyword argument")
  else if !(RouteSummary.requiredNames.all fun k => (lookupField kwargs k).isSome) then
    .error (.typeError "RouteSummary() missing a required argument")
  else
    .ok {
      id := kwArg kwargs "id" .null
      user_id := kwArg kwargs "user_id" .null
      name := kwArg kwargs "name" .null
      distance := kwArg kwargs "distance" .null
      elevation_gain := kwArg kwargs "elevation_gain" .null
      elevation_loss := kwArg kwargs "elevation_loss" .null
      created_at := kwArg kwargs "created_at" .null
      updated_at := kwArg kwargs "updated_at" .null
      visibility := kwArg kwargs "visibility" .null
      description := kwArg kwargs "description" .null
      locality := kwArg kwargs "locality" .null
      administrative_area := kwArg kwargs "administrative_area" .null
      country_code := kwArg kwargs "country_code" .null
      first_lat := kwArg kwargs "first_lat" .null
      first_lng := kwArg kwargs "first_lng" .null
      last_lat := kwArg kwargs "last_lat" .null
      last_lng := kwArg kwargs "last_lng" .null
      sw_lat := kwArg kwargs "sw_lat" .null
      sw_lng := kwArg kwargs "sw_lng" .null
      ne_lat := kwArg kwargs "ne_lat" .null
      ne_lng := kwArg kwargs "ne_lng" .null
      track_type := kwArg kwargs "track_type" .null
      terrain := kwArg kwargs "terrain" .null
      difficulty := kwArg kwargs "difficulty" .null
      unpaved_pct := kwArg kwargs "unpaved_pct" .null
      surface := kwArg kwargs "surface" .null
      archived := kwArg kwargs "archived" .null
      url := kwArg kwargs "url" .null
      html_url := kwArg kwargs "html_url" .null }

/-! ## The client (`client.py`) -/

/-- Base URL for all RWGPS API v1 endpoints. -/
def API_BASE_URL : String := "https://ridewithgps.com/api/v1"

/-- The `RideWithGPSClient.__init__` state: the caller-provided session and the two
credential strings. -/
structure RideWithGPSClient where
  _session : Transport
  _api_key : String
  _auth_token : String

namespace RideWithGPSClient

/-- The `_headers` property: the authentication headers attached to every
non-authentication request. -/
def _headers (c : RideWithGPSClient) : List (String × String) :=
  [("x-rwgps-api-key", c._api_key),
   ("x-rwgps-auth-token", c._auth_token),
   ("Content-Type", "application/json")]

/-- The request `_request` hands to the session.  `headers or
self._headers` in Python falls back to the default headers both for
`None` and for an empty dict (an empty dict is falsy). -/
def buildRequest (c : RideWithGPSClient) (method path : String)
    (params : List (String × Json)) (json_data : Option Json)
    (headers : Option (List (String × String))) : HttpRequest :=
  { method := method
    url := API_BASE_URL ++ path
    headers :=
      match headers with
      | none => c._headers
      | some h => if h.isEmpty then c._headers else h
    params := params
    json_data := json_data }

/-- The function `_request`: perform the call and map the response status, exactly in
the order of the Python conditionals. -/
def _request (c : RideWithGPSClient) (method path : String)
    (params : List (String × Json) := []) (json_data : Option Json := none)
    (headers : Option (List (String × String)) := none) : Except Err Json :=
  let resp := c._session (c.buildRequest method path params json_data headers)
  if resp.status = 401 then
    .error (.authenticationError "Authentication failed")
  else if resp.status = 403 then
    .error (.forbiddenError "Access forbidden")
  else if resp.status = 404 then
    .error (.notFoundError ("Resource not found: " ++ path))
  else if resp.status ≥ 400 then
    .error (.apiError resp.status resp.text)
  else if resp.status = 204 then
    .ok (.obj [])
  else
    .ok resp.body

end RideWithGPSClient

/-! ### Authentication -/

/-- The request `authenticate` posts: credentials under a `user` key, with
only the api-key and content-type headers (no auth token exists yet). -/
def authRequest (api_key email password : String) : HttpRequest :=
  { method := "POST"
    url := API_BASE_URL ++ "/auth_tokens.json"
    headers := [("x-rwgps-api-key", api_key), ("Content-Type", "application/json")]
    params := []
    json_data := some (.obj [("user",
      .obj [("email", .str email), ("password", .str password)])]) }

/-- Status handling and response unpacking of `authenticate`, as a
function of the received response alone.  The response format is
`auth_token.auth_token` nested: both the outer and the inner key are named
`auth_token`. -/
def processAuthResponse (resp : HttpResponse) : Except Err AuthToken :=
  if resp.status = 401 then
    .error (.authenticationError "Invalid email or password")
  else if resp.status = 400 then
    .error (.authenticationError "Bad request - check credentials")
  else if resp.status ≥ 400 then
    .error (.apiError resp.status resp.text)
  else do
    let data := resp.body
    let auth_data ← jIndex data "auth_token"
    let user_data ← jIndex auth_data "user"
    let tok ← jIndex auth_data "auth_token"
    let key ← jIndex auth_data "api_key"
    let uid ← jIndex user_data "id"
    .ok {
      auth_token := tok
      api_key := key
      user := {
        id := uid
        email := jGet user_data "email" (.str "")
        first_name := jGet user_data "first_name" (.str "")
        last_name := jGet user_data "last_name" (.str "")
        display_name := jGet user_data "display_name" (.str "")
        created_at := jGet user_data "created_at" (.str "")
        updated_at := jGet user_data "updated_at" (.str "") }
      created_at := jGet auth_data "created_at" .null
      updated_at := jGet auth_data "updated_at" .null }

/-- The static method `RideWithGPSClient.authenticate` (a static method: it takes the
session, not a client). -/
def authenticate (session : Transport) (api_key email password : String) :
    Except Err AuthToken :=
  processAuthResponse (session (authRequest api_key email password))

namespace RideWithGPSClient

/-! ### Trips -/

/-- The function `_parse_trip_summary`: it evaluates every keyword argument of the Python
call in source order (only the `t["id"]` and `t["user_id"]` subscripts can
raise; all other arguments use `.get` with a default), then invokes the
`TripSummary` dataclass constructor with that keyword list.  The call
passes a keyword `html_url`, which is not a field of `TripSummary`. -/
def _parse_trip_summary (t : Json) : Except Err TripSummary := do
  let id ← jIndex t "id"
  let user_id ← jIndex t "user_id"
  TripSummary.construct
    [("id", id),
     ("user_id", user_id),
     ("name", jGet t "name" (.str "")),
     ("distance", jGet t "distance" (.num 0)),
     ("duration", jGet t "duration" (.num 0)),
     ("moving_time", jGet t "moving_time" (.num 0)),
     ("elevation_gain", jGet t "elevation_gain" (.num 0)),
     ("elevation_loss", jGet t "elevation_loss" (.num 0)),
     ("created_at", jGet t "created_at" (.str "")),
     ("updated_at", jGet t "updated_at" (.str "")),
     ("visibility", jGet t "visibility" (.str "")),
     ("stationary", jGet t "stationary" (.bool false)),
     ("description", jGet t "description" .null),
     ("departed_at", jGet t "departed_at" .null),
     ("time_zone", jGet t "time_zone" .null),
     ("locality", jGet t "locality" .null),
     ("administrative_area", jGet t "administrative_area" .null),
     ("country_code", jGet t "country_code" .null),
     ("activity_type", jGet t "activity_type" .null),
     ("avg_speed", jGet t "avg_speed" .null),
     ("max_speed", jGet t "max_speed" .null),
     ("avg_hr", jGet t "avg_hr" .null),
     ("min_hr", jGet t "min_hr" .null),
     ("max_hr", jGet t "max_hr" .null),
     ("avg_cad", jGet t "avg_cad" .null),
     ("min_cad", jGet t "min_cad" .null),
     ("max_cad", jGet t "max_cad" .null),
     ("avg_watts", jGet t "avg_watts" .null),
     ("min_watts", jGet t "min_watts" .null),
     ("max_watts", jGet t "max_watts" .null),
     ("calories", jGet t "calories" .null),
     ("first_lat", jGet t "first_lat" .null),
     ("first_lng", jGet t "first_lng" .null),
     ("last_lat", jGet t "last_lat" .null),
     ("last_lng", jGet t "last_lng" .null),
     ("sw_lat", jGet t "sw_lat" .null),
     ("sw_lng", jGet t "sw_lng" .null),
     ("ne_lat", jGet t "ne_lat" .null),
     ("ne_lng", jGet t "ne_lng" .null),
     ("track_type", jGet t "track_type" .null),
     ("terrain", jGet t "terrain" .null),
     ("difficulty", jGet t "difficulty" .null),
     ("device", jGet t "device" .null),
     ("url", jGet t "url" .null),
     ("web_url", jGet t "web_url" .null),
     ("html_url", jGet t "html_url" .null)]

/-- The function `_parse_pagination`. -/
def _parse_pagination (meta : Json) : PaginationMeta :=
  let p := jGet meta "pagination" (.obj [])
  { record_count := jGet p "record_count" (.num 0)
    page_count := jGet p "page_count" (.num 0)
    page_size := jGet p "page_size" (.num 0)
    next_page_url := jGet p "next_page_url" .null }

/-- The request issued by `get_trips` for a given page and page size. -/
def tripsRequest (c : RideWithGPSClient) (page page_size : Nat) : HttpRequest :=
  c.buildRequest "GET" "/trips.json"
    [("page", .num page), ("page_size", .num page_size)] none none

/-- The function `get_trips`: one page of trips. -/
def get_trips (c : RideWithGPSClient) (page : Nat := 1) (page_size : Nat := 200) :
    Except Err (PaginatedResult TripSummary) := do
  let data ← c._request "GET" "/trips.json"
    [("page", .num page), ("page_size", .num page_size)]
  let ts ← jGetList data "trips"
  let trips ← parseEach _parse_trip_summary ts
  let pagination := _parse_pagination (jGet data "meta" (.obj []))
  .ok { items := trips, pagination := pagination }

/-! ### Routes -/

/-- The function `_parse_route_summary`: same keyword-call protocol; every keyword the
call passes is a declared `RouteSummary` field. -/
def _parse_route_summary (r : Json) : Except Err RouteSummary := do
  let id ← jIndex r "id"
  let user_id ← jIndex r "user_id"
  RouteSummary.construct
    [("id", id),
     ("user_id", user_id),
     ("name", jGet r "name" (.str "")),
     ("distance", jGet r "distance" (.num 0)),
     ("elevation_gain", jGet r "elevation_gain" (.num 0)),
     ("elevation_loss", jGet r "elevation_loss" (.num 0)),
     ("created_at", jGet r "created_at" (.str "")),
     ("updated_at", jGet r "updated_at" (.str "")),
     ("visibility", jGet r "visibility" (.str "")),
     ("description", jGet r "description" .null),
     ("locality", jGet r "locality" .null),
     ("administrative_area", jGet r "administrative_area" .null),
     ("country_code", jGet r "country_code" .null),
     ("first_lat", jGet r "first_lat" .null),
     ("first_lng", jGet r "first_lng" .null),
     ("last_lat", jGet r "last_lat" .null),
     ("last_lng", jGet r "last_lng" .null),
     ("sw_lat", jGet r "sw_lat" .null),
     ("sw_lng", jGet r "sw_lng" .null),
     ("ne_lat", jGet r "ne_lat" .null),
     ("ne_lng", jGet r "ne_lng" .null),
     ("track_type", jGet r "track_type" .null),
     ("terrain", jGet r "terrain" .null),
     ("difficulty", jGet r "difficulty" .null),
     ("unpaved_pct", jGet r "unpaved_pct" .null),
     ("surface", jGet r "surface" .null),
     ("archived", jGet r "archived" .null),
     ("url", jGet r "url" .null),
     ("html_url", jGet r "html_url" .null)]

/-- The request issued by `get_routes` for a given page and page size. -/
def routesRequest (c : RideWithGPSClient) (page page_size : Nat) : HttpRequest :=
  c.buildRequest "GET" "/routes.json"
    [("page", .num page), ("page_size", .num page_size)] none none

/-- The function `get_routes`: one page of routes. -/
def get_routes (c : RideWithGPSClient) (page : Nat := 1) (page_size : Nat := 200) :
    Except Err (PaginatedResult RouteSummary) := do
  let data ← c._request "GET" "/routes.json"
    [("page", .num page), ("page_size", .num page_size)]
  let rs ← jGetList data "routes"
  let routes ← parseEach _parse_route_summary rs
  let pagination := _parse_pagination (jGet data "meta" (.obj []))
  .ok { items := routes, pagination := pagination }

end RideWithGPSClient

/-! ### The pagination-draining loop

`get_all_trips` and `get_all_routes` are textually identical `while True`
loops over their single-page fetch; the shared loop body is factored into
`drainPages`, parametrised by the fetch.  The Python loop has no built-in
bound, so the embedding carries a fuel argument: `none` means the loop was
still running when the fuel ran out (it never means a returned value). -/

/-- The `while True` loop shared by `get_all_trips` and `get_all_routes`:
fetch the current page, append its items, stop when `next_page_url` is
null, otherwise move to the next page. -/
def drainPages {α : Type} (fetch : Nat → Except Err (PaginatedResult α)) :
    Nat → Nat → List α → Option (Except Err (List α))
  | 0, _, _ => none
  | fuel + 1, page, acc =>
      match fetch page with
      | .error e => some (.error e)
      | .ok result =>
          let acc' := acc ++ result.items
          if result.pagination.next_page_url.isNull then some (.ok acc')
          else drainPages fetch fuel (page + 1) acc'

/-- Instrumented copy of `drainPages` that also records, in order, each
`(page, page_size)` pair the loop fetched. -/
def drainPagesTrace {α : Type} (fetch : Nat → Nat → Except Err (PaginatedResult α))
    (page_size : Nat) :
    Nat → Nat → List α → List (Nat × Nat) →
    Option (Except Err (List α) × List (Nat × Nat))
  | 0, _, _, _ => none
  | fuel + 1, page, acc, tr =>
      match fetch page page_size with
      | .error e => some (.error e, tr ++ [(page, page_size)])
      | .ok result =>
          let acc' := acc ++ result.items
          if result.pagination.next_page_url.isNull then
            some (.ok acc', tr ++ [(page, page_size)])
          else drainPagesTrace fetch page_size fuel (page + 1) acc' (tr ++ [(page, page_size)])

namespace RideWithGPSClient

/-- The function `get_all_trips`: drain every page of trips, starting at page 1 with
the fixed maximal page size 200. -/
def get_all_trips (c : RideWithGPSClient) (fuel : Nat) :
    Option (Except Err (List TripSummary)) :=
  drainPages (fun page => c.get_trips page 200) fuel 1 []

/-- Variant of `get_all_trips` with the fetched `(page, page_size)` pairs recorded. -/
def get_all_trips_trace (c : RideWithGPSClient) (fuel : Nat) :
    Option (Except Err (List TripSummary) × List (Nat × Nat)) :=
  drainPagesTrace (fun page page_size => c.get_trips page page_size) 200 fuel 1 [] []

/-- The function `get_all_routes`: drain every page of routes, starting at page 1 with
the fixed maximal page size 200. -/
def get_all_routes (c : RideWithGPSClient) (fuel : Nat) :
    Option (Except Err (List RouteSummary)) :=
  drainPages (fun page => c.get_routes page 200) fuel 1 []

/-- Variant of `get_all_routes` with the fetched `(page, page_size)` pairs recorded. -/
def get_all_routes_trace (c : RideWithGPSClient) (fuel : Nat) :
    Option (Except Err (List RouteSummary) × List (Nat × Nat)) :=
  drainPagesTrace (fun page page_size => c.get_routes page page_size) 200 fuel 1 [] []

/-! ### Sync -/

/-- The body of the list comprehension in `get_sync`: one `SyncItem` from
one response entry. -/
def syncItemOfJson (i : Json) : Except Err SyncItem := do
  let item_type ← jIndex i "item_type"
  let item_id ← jIndex i "item_id"
  let item_user_id ← jIndex i "item_user_id"
  let action ← jIndex i "action"
  let dt ← jIndex i "datetime"
  .ok {
    item_type := item_type
    item_id := item_id
    item_user_id := item_user_id
    action := action
    datetime := dt
    item_url := jGet i "item_url" .null }

/-- The request issued by `get_sync`. -/
def syncRequest (c : RideWithGPSClient) (since assets : String) : HttpRequest :=
  c.buildRequest "GET" "/sync.json"
    [("since", .str since), ("assets", .str assets)] none none

/-- The function `get_sync`: changes since a given datetime. -/
def get_sync (c : RideWithGPSClient) (since : String)
    (assets : String := "routes,trips") : Except Err SyncResult := do
  let data ← c._request "GET" "/sync.json"
    [("since", .str since), ("assets", .str assets)]
  let is ← jGetList data "items"
  let items ← parseEach syncItemOfJson is
  let meta := jGet data "meta" (.obj [])
  .ok {
    items := items
    rwgps_datetime := jGet meta "rwgps_datetime" (.str "")
    next_sync_url := jGet meta "next_sync_url" .null }

end RideWithGPSClient

/-! ### Page bookkeeping used by the drain theorems -/

/-- In-order concatenation of the items of `n` consecutive pages starting
at `page`, each page's parsed result given by `R`. -/
def pagesConcat {α : Type} (R : Nat → PaginatedResult α) : Nat → Nat → List α
  | _, 0 => []
  | page, n + 1 => (R page).items ++ pagesConcat R (page + 1) n

/-- The `(page, page_size)` pairs of `n` consecutive fetches starting at
`page`. -/
def pageCalls (page_size : Nat) : Nat → Nat → List (Nat × Nat)
  | _, 0 => []
  | page, n + 1 => (page, page_size) :: pageCalls page_size (page + 1) n

/-! ## Concrete servers used by the scenario theorems and the witnesses -/

/-- A server answering `200` with an empty JSON object to every request. -/
def emptyObjSession : Transport := fun _ => ⟨200, .obj [], ""⟩

/-- A client over `emptyObjSession`. -/
def cEmpty : RideWithGPSClient := ⟨emptyObjSession, "key", "tok"⟩

/-- A server answering `401` to every request. -/
def c401 : RideWithGPSClient := ⟨fun _ => ⟨401, .null, "denied"⟩, "key", "tok"⟩

/-- A server answering `400` to every request. -/
def c400 : RideWithGPSClient := ⟨fun _ => ⟨400, .null, "bad"⟩, "key", "tok"⟩

/-- A server that copies the `page_size` query parameter it received into
the `next_page_url` slot of the pagination metadata of its answer, so the
answer proves which page size reached the server. -/
def echoPageSizeSession : Transport := fun req =>
  ⟨200, .obj [("meta", .obj [("pagination", .obj [("next_page_url",
      (lookupField req.params "page_size").getD .null)])])], ""⟩

/-- A client over `echoPageSizeSession`. -/
def cEcho : RideWithGPSClient := ⟨echoPageSizeSession, "key", "tok"⟩

/-- One page of a trip listing: `n` copies of a minimal trip plus the
pagination metadata of the 457-trip scenario. -/
def tripPageBody (n : Nat) (next : Json) : Json :=
  .obj [("trips", .arr (List.replicate n (.obj [("id", .num 1), ("user_id", .num 2)]))),
        ("meta", .obj [("pagination", .obj
          [("record_count", .num 457), ("page_count", .num 3),
           ("page_size", .num 200), ("next_page_url", next)])])]

/-- The specification scenario: a 3-page trip listing with 200/200/57
items whose `next_page_url` is null only on page 3. -/
def tripsScenarioSession : Transport := fun req =>
  match lookupField req.params "page" with
  | some (.num 1) => ⟨200, tripPageBody 200 (.str "page2"), ""⟩
  | some (.num 2) => ⟨200, tripPageBody 200 (.str "page3"), ""⟩
  | _ => ⟨200, tripPageBody 57 .null, ""⟩

/-- A client over `tripsScenarioSession`. -/
def cTrips457 : RideWithGPSClient := ⟨tripsScenarioSession, "key", "tok"⟩

/-- One page of a route listing: `n` copies of a minimal route whose id
records the page it came from. -/
def routePageBody (pageId : Int) (n : Nat) (next : Json) : Json :=
  .obj [("routes", .arr (List.replicate n (.obj [("id", .num pageId), ("user_id", .num 2)]))),
        ("meta", .obj [("pagination", .obj [("next_page_url", next)])])]

/-- A 3-page route listing with 2/2/1 items, ids recording their page,
`next_page_url` null only on page 3. -/
def routesScenarioSession : Transport := fun req =>
  match lookupField req.params "page" with
  | some (.num 1) => ⟨200, routePageBody 1 2 (.str "page2"), ""⟩
  | some (.num 2) => ⟨200, routePageBody 2 2 (.str "page3"), ""⟩
  | _ => ⟨200, routePageBody 3 1 .null, ""⟩

/-- A client over `routesScenarioSession`. -/
def cRoutes3 : RideWithGPSClient := ⟨routesScenarioSession, "key", "tok"⟩

/-- The parsed form of a minimal route `{id: i, user_id: 2}`: required
textual fields default to the empty string, numeric ones to 0, and every
optional field (including the boolean-annotated `archived`) to null. -/
def minRoute (i : Int) : RouteSummary :=
  ⟨.num i, .num 2, .str "", .num 0, .num 0, .num 0, .str "", .str "", .str "",
   .null, .null, .null, .null, .null, .null, .null, .null, .null, .null,
   .null, .null, .null, .null, .null, .null, .null, .null, .null, .null⟩

/-- A server whose trip listing has an empty page 1 pointing at page 2,
and answers `500` from page 2 on. -/
def failPage2Session : Transport := fun req =>
  match lookupField req.params "page" with
  | some (.num 1) =>
      ⟨200, .obj [("trips", .arr []), ("routes", .arr []),
        ("meta", .obj [("pagination", .obj [("next_page_url", .str "page2")])])], ""⟩
  | _ => ⟨500, .null, "server exploded"⟩

/-- A client over `failPage2Session`. -/
def cFail : RideWithGPSClient := ⟨failPage2Session, "key", "tok"⟩

/-- A successful authentication body with token `T`, api key `K`, user id 1. -/
def authBodyW : Json :=
  .obj [("auth_token", .obj [("auth_token", .str "T"), ("api_key", .str "K"),
    ("user", .obj [("id", .num 1)])])]

/-! ## General properties of the draining loop -/

/-- If every page from `page` to `k` fetches successfully, `k` is the
first of them whose `next_page_url` is null, and the fuel covers the
remaining pages, the loop returns the accumulator followed by the in-order
concatenation of pages `page..k`. -/
theorem drainPages_ok {α : Type} (fetch : Nat → Except Err (PaginatedResult α))
    (R : Nat → PaginatedResult α) (k : Nat)
    (hfetch : ∀ p, 1 ≤ p → p ≤ k → fetch p = .ok (R p))
    (hlast : (R k).pagination.next_page_url.isNull = true)
    (hmid : ∀ p, 1 ≤ p → p < k → (R p).pagination.next_page_url.isNull = false) :
    ∀ fuel page acc, 1 ≤ page → page ≤ k → k + 1 ≤ fuel + page →
    drainPages fetch fuel page acc = some (.ok (acc ++ pagesConcat R page (k + 1 - page))) := by
  intro fuel
  induction fuel with
  | zero => intro page acc h1 h2 h3; omega
  | succ fuel ih =>
      intro page acc h1 h2 h3
      simp only [drainPages, hfetch page h1 h2]
      by_cases hpk : page = k
      · rw [hpk, if_pos hlast]
        have hk : k + 1 - k = 1 := by omega
        rw [hk]
        simp [pagesConcat]
      · have hlt : page < k := by omega
        rw [if_neg (by simp [hmid page h1 hlt])]
        rw [ih (page + 1) (acc ++ (R page).items) (by omega) (by omega) (by omega)]
        have hn : k + 1 - page = (k + 1 - (page + 1)) + 1 := by omega
        rw [hn, pagesConcat]
        simp

/-- If every page before `j` fetches successfully with a non-null
`next_page_url` and page `j` fetches to an error, the loop surfaces
exactly that error (the accumulator is discarded). -/
theorem drainPages_err {α : Type} (fetch : Nat → Except Err (PaginatedResult α))
    (R : Nat → PaginatedResult α) (j : Nat) (e : Err)
    (hfetch : ∀ p, 1 ≤ p → p < j → fetch p = .ok (R p))
    (hmid : ∀ p, 1 ≤ p → p < j → (R p).pagination.next_page_url.isNull = false)
    (herr : fetch j = .error e) :
    ∀ fuel page acc, 1 ≤ page → page ≤ j → j + 1 ≤ fuel + page →
    drainPages fetch fuel page acc = some (.error e) := by
  intro fuel
  induction fuel with
  | zero => intro page acc h1 h2 h3; omega
  | succ fuel ih =>
      intro page acc h1 h2 h3
      by_cases hpj : page = j
      · rw [hpj] at *
        simp only [drainPages, herr]
      · have hlt : page < j := by omega
        simp only [drainPages, hfetch page h1 hlt]
        rw [if_neg (by simp [hmid page h1 hlt])]
        exact ih (page + 1) (acc ++ (R page).items) (by omega) (by omega) (by omega)

/-- The instrumented loop returns the same value as `drainPages` and the
trace of its calls: the pages `page..k` in order, each with the fixed page
size. -/
theorem drainPagesTrace_ok {α : Type}
    (fetch : Nat → Nat → Except Err (PaginatedResult α)) (ps : Nat)
    (R : Nat → PaginatedResult α) (k : Nat)
    (hfetch : ∀ p, 1 ≤ p → p ≤ k → fetch p ps = .ok (R p))
    (hlast : (R k).pagination.next_page_url.isNull = true)
    (hmid : ∀ p, 1 ≤ p → p < k → (R p).pagination.next_page_url.isNull = false) :
    ∀ fuel page acc tr, 1 ≤ page → page ≤ k → k + 1 ≤ fuel + page →
    drainPagesTrace fetch ps fuel page acc tr =
      some (.ok (acc ++ pagesConcat R page (k + 1 - page)),
            tr ++ pageCalls ps page (k + 1 - page)) := by
  intro fuel
  induction fuel with
  | zero => intro page acc tr h1 h2 h3; omega
  | succ fuel ih =>
      intro page acc tr h1 h2 h3
      simp only [drainPagesTrace, hfetch page h1 h2]
      by_cases hpk : page = k
      · rw [hpk, if_pos hlast]
        have hk : k + 1 - k = 1 := by omega
        rw [hk]
        simp [pagesConcat, pageCalls]
      · have hlt : page < k := by omega
        rw [if_neg (by simp [hmid page h1 hlt])]
        rw [ih (page + 1) (acc ++ (R page).items) (tr ++ [(page, ps)]) (by omega) (by omega) (by omega)]
        have hn : k + 1 - page = (k + 1 - (page + 1)) + 1 := by omega
        rw [hn, pagesConcat, pageCalls]
        simp

/-- The fetch trace is the contiguous page range paired with the fixed
page size: pages strictly increasing with no gaps. -/
theorem pageCalls_eq_range' (ps : Nat) :
    ∀ n page, pageCalls ps page n = (List.range' page n).map (fun p => (p, ps)) := by
  intro n
  induction n with
  | zero => intro page; simp [pageCalls]
  | succ n ih =>
      intro page
      rw [pageCalls, List.range'_succ, List.map_cons, ih]

/-- Every `(page, page_size)` pair the instrumented loop adds to its trace
carries the fixed page size it was given. -/
theorem drainPagesTrace_snd_eq {α : Type}
    (fetch : Nat → Nat → Except Err (PaginatedResult α)) (ps : Nat) :
    ∀ fuel page acc tr res out, drainPagesTrace fetch ps fuel page acc tr = some (res, out) →
    ∀ x ∈ out, x ∈ tr ∨ x.2 = ps := by
  intro fuel
  induction fuel with
  | zero => intro page acc tr res out h; simp [drainPagesTrace] at h
  | succ fuel ih =>
      intro page acc tr res out h
      rw [drainPagesTrace] at h
      cases hf : fetch page ps with
      | error e =>
          rw [hf] at h
          simp only [Option.some.injEq, Prod.mk.injEq] at h
          intro x hx
          rw [← h.2] at hx
          rcases List.mem_append.mp hx with h1 | h1
          · exact Or.inl h1
          · simp at h1; simp [h1]
      | ok r =>
          rw [hf] at h
          simp only at h
          by_cases hnull : r.pagination.next_page_url.isNull = true
          · rw [if_pos hnull] at h
            simp only [Option.some.injEq, Prod.mk.injEq] at h
            intro x hx
            rw [← h.2] at hx
            rcases List.mem_append.mp hx with h1 | h1
            · exact Or.inl h1
            · simp at h1; simp [h1]
          · rw [if_neg hnull] at h
            intro x hx
            rcases ih _ _ _ _ _ h x hx with h1 | h1
            · rcases List.mem_append.mp h1 with h2 | h2
              · exact Or.inl h2
              · simp at h2; simp [h2]
            · exact Or.inr h1

/-- Python `d.get(k, default)` returns the default when the key is absent. -/
theorem jGet_of_memKey_false (j : Json) (k : String) (d : Json)
    (h : j.memKey k = false) : jGet j k d = d := by
  cases j with
  | obj fs =>
      rw [Json.memKey] at h
      cases hl : lookupField fs k with
      | none => simp [jGet, hl]
      | some v => rw [hl] at h; simp at h
  | null => rfl
  | bool b => rfl
  | num n => rfl
  | str s => rfl
  | arr xs => rfl

/-! ## The claims -/

/-- C1: the drain must fetch pages 1, 2, 3, … with page size 200, stop at
the first null `next_page_url`, and return the in-order concatenation; in
particular the 3-page 200/200/57 trip listing must yield 457 trips.  The
code violates this for trips: `_parse_trip_summary` passes the keyword
`html_url` to the `TripSummary` dataclass, which has no such field, so the
very first trip of page 1 raises `TypeError` and the drain of the scenario
returns that error instead of 457 trips (the trace shows it aborted during
page 1).  The identically-shaped routes drain behaves as claimed: on a
3-page 2/2/1 route listing it fetches exactly pages 1, 2, 3 with page size
200 and returns the pages' items concatenated in order. -/
theorem c1_drain_scenarios :
    cTrips457.get_all_trips 3 =
      some (.error (.typeError "TripSummary() got an unexpected keyword argument")) ∧
    cTrips457.get_all_trips_trace 3 =
      some (.error (.typeError "TripSummary() got an unexpected keyword argument"), [(1, 200)]) ∧
    cRoutes3.get_all_routes 3 =
      some (.ok [minRoute 1, minRoute 1, minRoute 2, minRoute 2, minRoute 3]) ∧
    cRoutes3.get_all_routes_trace 3 =
      some (.ok [minRoute 1, minRoute 1, minRoute 2, minRoute 2, minRoute 3],
            (List.range' 1 3).map (fun p => (p, 200))) :=
  ⟨rfl, rfl, rfl, rfl⟩

/-- C5: the response mapper is claimed to map any JSON object to a typed
record, defaulting every omitted optional field.  The code violates this
for trips: on the minimal trip object `(id 7, user_id 9)` the mapper
raises `TypeError` (it passes the keyword `html_url`, not a `TripSummary`
field) instead of returning a defaulted record.  The route mapper does
behave as claimed on the minimal route object: required numeric fields
default to 0, required textual fields to the empty string, and every
optional field to null - including the boolean-annotated `archived`,
whose documented default is `None`, not `False`. -/
theorem c5_mapper_defaults :
    RideWithGPSClient._parse_trip_summary (.obj [("id", .num 7), ("user_id", .num 9)]) =
      .error (.typeError "TripSummary() got an unexpected keyword argument") ∧
    RideWithGPSClient._parse_route_summary (.obj [("id", .num 7), ("user_id", .num 2)]) =
      .ok (minRoute 7) :=
  ⟨rfl, rfl⟩

/-- C6 counterexample: `get_trips` is claimed to reject any `page_size`
outside 20-200 before issuing the request.  It does not: with page sizes
5000 and 5 the request is issued (the echoing server writes the page size
it received into `next_page_url`, so the successful results prove the
out-of-range values reached the server). -/
theorem c6_counterexample :
    cEcho.get_trips 1 5000 = .ok ⟨[], ⟨.num 0, .num 0, .num 0, .num 5000⟩⟩ ∧
    cEcho.get_trips 1 5 = .ok ⟨[], ⟨.num 0, .num 0, .num 0, .num 5⟩⟩ ∧
    cEcho.get_routes 1 5000 = .ok ⟨[], ⟨.num 0, .num 0, .num 0, .num 5000⟩⟩ :=
  ⟨rfl, rfl, rfl⟩

/-- C6 (amended): the single-page fetches perform no validation of
`page_size` - every value is forwarded unchanged as the `page_size` query
parameter - while the drain operations only ever fetch with page size
exactly 200. -/
theorem c6_no_page_size_validation :
    (∀ (c : RideWithGPSClient) (page page_size : Nat),
      (c.tripsRequest page page_size).params =
        [("page", .num page), ("page_size", .num page_size)] ∧
      (c.routesRequest page page_size).params =
        [("page", .num page), ("page_size", .num page_size)]) ∧
    (∀ (c : RideWithGPSClient) (fuel : Nat) res tr,
      c.get_all_trips_trace fuel = some (res, tr) → ∀ x ∈ tr, x.2 = 200) ∧
    (∀ (c : RideWithGPSClient) (fuel : Nat) res tr,
      c.get_all_routes_trace fuel = some (res, tr) → ∀ x ∈ tr, x.2 = 200) := by
  refine ⟨fun c page ps => ⟨rfl, rfl⟩, ?_, ?_⟩
  · intro c fuel res tr h x hx
    rcases drainPagesTrace_snd_eq _ 200 fuel 1 [] [] res tr h x hx with h1 | h1
    · simp at h1
    · exact h1
  · intro c fuel res tr h x hx
    rcases drainPagesTrace_snd_eq _ 200 fuel 1 [] [] res tr h x hx with h1 | h1
    · simp at h1
    · exact h1

/-- C6 witness: the amended theorem applied to a concrete client: the
request for page 3 with page size 77 carries exactly those parameters, and
the trace of a concrete one-page drain consists of calls with page size
200. -/
theorem c6_witness :
    (cEmpty.tripsRequest 3 77).params = [("page", .num 3), ("page_size", .num 77)] ∧
    ((1 : Nat), (200 : Nat)).2 = 200 :=
  ⟨(c6_no_page_size_validation.1 cEmpty 3 77).1,
   c6_no_page_size_validation.2.1 cEmpty 1 (.ok []) [(1, 200)] rfl (1, 200) (by simp)⟩

/-- C7: if every page before `j` fetches successfully with a non-null
`next_page_url` and the fetch of page `j` raises an error, the whole drain
surfaces exactly that error and the accumulated pages are discarded (the
result is the bare error, carrying no partial list); for trips and for
routes alike. -/
theorem c7_drain_error_propagation :
    (∀ (c : RideWithGPSClient) (R : Nat → PaginatedResult TripSummary)
       (j : Nat) (e : Err) (fuel : Nat),
      (∀ p, 1 ≤ p → p < j → c.get_trips p 200 = .ok (R p)) →
      (∀ p, 1 ≤ p → p < j → (R p).pagination.next_page_url.isNull = false) →
      c.get_trips j 200 = .error e → 1 ≤ j → j ≤ fuel →
      c.get_all_trips fuel = some (.error e)) ∧
    (∀ (c : RideWithGPSClient) (R : Nat → PaginatedResult RouteSummary)
       (j : Nat) (e : Err) (fuel : Nat),
      (∀ p, 1 ≤ p → p < j → c.get_routes p 200 = .ok (R p)) →
      (∀ p, 1 ≤ p → p < j → (R p).pagination.next_page_url.isNull = false) →
      c.get_routes j 200 = .error e → 1 ≤ j → j ≤ fuel →
      c.get_all_routes fuel = some (.error e)) := by
  constructor
  · intro c R j e fuel hfetch hmid herr hj hfuel
    exact drainPages_err _ R j e hfetch hmid herr fuel 1 [] (by omega) hj (by omega)
  · intro c R j e fuel hfetch hmid herr hj hfuel
    exact drainPages_err _ R j e hfetch hmid herr fuel 1 [] (by omega) hj (by omega)

/-- C7 witness: a server whose page 1 is an empty trips page pointing at
page 2 and whose page 2 answers 500: the drain of 2 pages surfaces exactly
the `ApiError` of page 2 and returns no partial list. -/
theorem c7_witness : cFail.get_all_trips 2 = some (.error (.apiError 500 "server exploded")) :=
  c7_drain_error_propagation.1 cFail
    (fun _ => ⟨[], ⟨.num 0, .num 0, .num 0, .str "page2"⟩⟩) 2
    (.apiError 500 "server exploded") 2
    (fun p h1 h2 => by
      have hp : p = 1 := by omega
      subst hp
      rfl)
    (fun p h1 h2 => by
      have hp : p = 1 := by omega
      subst hp
      rfl)
    rfl (by omega) (by omega)

/-- C2: the request executor's status mapping is exhaustive and exclusive:
401 raises exactly `AuthenticationError`, 403 exactly `ForbiddenError`,
404 exactly `NotFoundError`, any other status at least 400 exactly
`ApiError` with the numeric status and the raw response text; 204 returns
an empty object without touching the response body; any other status below
400 returns the parsed JSON body; and no status below 400 ever raises. -/
theorem c2_status_code_mapping (c : RideWithGPSClient) (method path : String)
    (params : List (String × Json)) (json_data : Option Json)
    (headers : Option (List (String × String))) (resp : HttpResponse)
    (hresp : c._session (c.buildRequest method path params json_data headers) = resp) :
    (resp.status = 401 → c._request method path params json_data headers =
      .error (.authenticationError "Authentication failed")) ∧
    (resp.status = 403 → c._request method path params json_data headers =
      .error (.forbiddenError "Access forbidden")) ∧
    (resp.status = 404 → c._request method path params json_data headers =
      .error (.notFoundError ("Resource not found: " ++ path))) ∧
    (resp.status ≥ 400 → resp.status ≠ 401 → resp.status ≠ 403 → resp.status ≠ 404 →
      c._request method path params json_data headers =
        .error (.apiError resp.status resp.text)) ∧
    (resp.status = 204 → c._request method path params json_data headers =
      .ok (.obj [])) ∧
    (resp.status < 400 → resp.status ≠ 204 →
      c._request method path params json_data headers = .ok resp.body) ∧
    (resp.status < 400 → ∀ e, c._request method path params json_data headers ≠ .error e) := by
  refine ⟨fun h => ?_, fun h => ?_, fun h => ?_, fun h h1 h2 h3 => ?_,
          fun h => ?_, fun h h1 => ?_, fun h e => ?_⟩
  · simp [RideWithGPSClient._request, hresp, h]
  · simp [RideWithGPSClient._request, hresp, h]
  · simp [RideWithGPSClient._request, hresp, h]
  · simp [RideWithGPSClient._request, hresp, h, h1, h2, h3]
  · simp [RideWithGPSClient._request, hresp, h]
  · have h2 : resp.status ≠ 401 := by omega
    have h3 : resp.status ≠ 403 := by omega
    have h4 : resp.status ≠ 404 := by omega
    have h5 : ¬ resp.status ≥ 400 := by omega
    simp [RideWithGPSClient._request, hresp, h1, h2, h3, h4, h5]
  · have h2 : resp.status ≠ 401 := by omega
    have h3 : resp.status ≠ 403 := by omega
    have h4 : resp.status ≠ 404 := by omega
    have h5 : ¬ resp.status ≥ 400 := by omega
    simp only [RideWithGPSClient._request, hresp, if_neg h2, if_neg h3, if_neg h4, if_neg h5]
    by_cases h6 : resp.status = 204 <;> simp [h6]

/-- C2 witness: at a concrete 401 server the executor raises exactly
`AuthenticationError`. -/
theorem c2_witness :
    c401._request "GET" "/trips.json" [] none none =
      .error (.authenticationError "Authentication failed") :=
  (c2_status_code_mapping c401 "GET" "/trips.json" [] none none ⟨401, .null, "denied"⟩ rfl).1 rfl

/-- C3: during `authenticate`, and only there, statuses 400 and 401 both
raise `AuthenticationError`, the same kind, differing only in message
text; any other status at least 400 there raises the generic `ApiError`;
and in the shared request executor (every other operation) status 400
raises the generic `ApiError`, not `AuthenticationError`. -/
theorem c3_auth_status_asymmetry (session : Transport)
    (api_key email password : String) (resp : HttpResponse)
    (hresp : session (authRequest api_key email password) = resp) :
    (resp.status = 401 → authenticate session api_key email password =
      .error (.authenticationError "Invalid email or password")) ∧
    (resp.status = 400 → authenticate session api_key email password =
      .error (.authenticationError "Bad request - check credentials")) ∧
    (resp.status ≥ 400 → resp.status ≠ 400 → resp.status ≠ 401 →
      authenticate session api_key email password =
        .error (.apiError resp.status resp.text)) ∧
    (∀ (c : RideWithGPSClient) (method path : String) (params : List (String × Json))
       (json_data : Option Json) (headers : Option (List (String × String))),
      (c._session (c.buildRequest method path params json_data headers)).status = 400 →
      c._request method path params json_data headers =
        .error (.apiError 400
          (c._session (c.buildRequest method path params json_data headers)).text)) := by
  refine ⟨fun h => ?_, fun h => ?_, fun h h1 h2 => ?_, fun c m p ps b hd h => ?_⟩
  · simp [authenticate, processAuthResponse, hresp, h]
  · simp [authenticate, processAuthResponse, hresp, h]
  · simp [authenticate, processAuthResponse, hresp, h, h1, h2]
  · simp [RideWithGPSClient._request, h]

/-- C3 witness: at a concrete 400 server, `authenticate` raises
`AuthenticationError` with the bad-request message, while the shared
request executor raises the generic `ApiError`. -/
theorem c3_witness :
    authenticate (fun _ => ⟨400, .null, "bad"⟩) "key" "mail" "pw" =
      .error (.authenticationError "Bad request - check credentials") ∧
    c400._request "GET" "/trips.json" [] none none = .error (.apiError 400 "bad") :=
  ⟨(c3_auth_status_asymmetry (fun _ => ⟨400, .null, "bad"⟩) "key" "mail" "pw"
      ⟨400, .null, "bad"⟩ rfl).2.1 rfl,
   (c3_auth_status_asymmetry (fun _ => ⟨400, .null, "bad"⟩) "key" "mail" "pw"
      ⟨400, .null, "bad"⟩ rfl).2.2.2 c400 "GET" "/trips.json" [] none none rfl⟩

/-- C4: on a successful authentication response of the nested form, the
returned token's `auth_token` field is the inner value (not the outer
key's object), its `api_key` field is the inner `api_key` value, and its
nested user's `id` is the response's user id - for arbitrary further
fields in both the token object and the user object. -/
theorem c4_auth_unpacking (session : Transport) (api_key email password s : String)
    (tokV apiV idV : Json) (tokenRest userRest : List (String × Json))
    (hresp : session (authRequest api_key email password) =
      ⟨200, .obj [("auth_token", .obj ([("auth_token", tokV), ("api_key", apiV),
        ("user", .obj (("id", idV) :: userRest))] ++ tokenRest))], s⟩) :
    (authenticate session api_key email password).map
      (fun a => (a.auth_token, a.api_key, a.user.id)) = .ok (tokV, apiV, idV) := by
  unfold authenticate
  rw [hresp]
  rfl

/-- C4 witness: the exact response shape of the specification scenario,
with token string `T`, api key `K` and user id 1. -/
theorem c4_witness :
    (authenticate (fun _ => ⟨200, authBodyW, ""⟩) "key" "mail" "pw").map
      (fun a => (a.auth_token, a.api_key, a.user.id)) =
      .ok (.str "T", .str "K", .num 1) :=
  c4_auth_unpacking (fun _ => ⟨200, authBodyW, ""⟩) "key" "mail" "pw" ""
    (.str "T") (.str "K") (.num 1) [] [] rfl

/-- C8: every request the executor builds from the default headers carries
exactly the api-key, auth-token and content-type headers - in particular
the trips, routes and sync listing requests - while the authenticate
request carries only the api-key and content-type headers, with no
auth-token header. -/
theorem c8_request_headers (c : RideWithGPSClient) :
    (∀ (method path : String) (params : List (String × Json)) (json_data : Option Json),
      (c.buildRequest method path params json_data none).headers =
        [("x-rwgps-api-key", c._api_key), ("x-rwgps-auth-token", c._auth_token),
         ("Content-Type", "application/json")]) ∧
    (∀ page page_size, (c.tripsRequest page page_size).headers = c._headers) ∧
    (∀ page page_size, (c.routesRequest page page_size).headers = c._headers) ∧
    (∀ since assets, (c.syncRequest since assets).headers = c._headers) ∧
    (∀ api_key email password : String, (authRequest api_key email password).headers =
      [("x-rwgps-api-key", api_key), ("Content-Type", "application/json")]) :=
  ⟨fun _ _ _ _ => rfl, fun _ _ => rfl, fun _ _ => rfl, fun _ _ => rfl, fun _ _ _ => rfl⟩

/-- C9: the returned token is a function of the server's response alone:
two authenticate runs with different passwords that receive the identical
response return identical `AuthToken` values, so no field of the result is
derived from the password argument. -/
theorem c9_password_noninterference (s1 s2 : Transport)
    (api_key email pw1 pw2 : String)
    (hresp : s1 (authRequest api_key email pw1) = s2 (authRequest api_key email pw2)) :
    authenticate s1 api_key email pw1 = authenticate s2 api_key email pw2 := by
  unfold authenticate
  rw [hresp]

/-- C9 witness: two runs with different passwords against servers giving
the same successful response return the same token. -/
theorem c9_witness :
    authenticate (fun _ => ⟨200, authBodyW, ""⟩) "key" "mail" "password-one" =
    authenticate (fun _ => ⟨200, authBodyW, ""⟩) "key" "mail" "password-two" :=
  c9_password_noninterference (fun _ => ⟨200, authBodyW, ""⟩)
    (fun _ => ⟨200, authBodyW, ""⟩) "key" "mail" "password-one" "password-two" rfl

/-- C10: a parsed sync response lacking the `items` and `meta` keys yields
`SyncResult` with an empty item list, empty-string `rwgps_datetime` and
null `next_sync_url`; a list response whose meta lacks `pagination` parses
to `PaginationMeta` with counts 0 and null `next_page_url`; and a page
whose `next_page_url` is null (as absent pagination metadata produces)
terminates the drain after that page rather than raising. -/
theorem c10_missing_key_defaults (data : Json)
    (hitems : data.memKey "items" = false) (hmeta : data.memKey "meta" = false) :
    (∀ (c : RideWithGPSClient) (since assets s : String),
      c._session (c.syncRequest since assets) = ⟨200, data, s⟩ →
      c.get_sync since assets = .ok ⟨[], .str "", .null⟩) ∧
    (∀ meta, meta.memKey "pagination" = false →
      RideWithGPSClient._parse_pagination meta = ⟨.num 0, .num 0, .num 0, .null⟩) ∧
    (∀ (c : RideWithGPSClient) (r : PaginatedResult TripSummary) (fuel : Nat),
      c.get_trips 1 200 = .ok r → r.pagination.next_page_url = .null →
      c.get_all_trips (fuel + 1) = some (.ok r.items)) ∧
    (∀ (c : RideWithGPSClient) (r : PaginatedResult RouteSummary) (fuel : Nat),
      c.get_routes 1 200 = .ok r → r.pagination.next_page_url = .null →
      c.get_all_routes (fuel + 1) = some (.ok r.items)) := by
  refine ⟨?_, ?_, ?_, ?_⟩
  · intro c since assets s h
    have h' : c._session (c.buildRequest "GET" "/sync.json"
        [("since", .str since), ("assets", .str assets)] none none) = ⟨200, data, s⟩ := h
    have hreq : c._request "GET" "/sync.json"
        [("since", .str since), ("assets", .str assets)] none none = .ok data := by
      simp [RideWithGPSClient._request, h']
    have e1 : jGetList data "items" = .ok [] := by
      unfold jGetList
      rw [jGet_of_memKey_false data "items" _ hitems]
    have e2 : jGet data "meta" (.obj []) = .obj [] :=
      jGet_of_memKey_false data "meta" _ hmeta
    have step : c.get_sync since assets = (do
        let is ← jGetList data "items"
        let items ← parseEach RideWithGPSClient.syncItemOfJson is
        Except.ok (⟨items,
          jGet (jGet data "meta" (.obj [])) "rwgps_datetime" (.str ""),
          jGet (jGet data "meta" (.obj [])) "next_sync_url" .null⟩ : SyncResult)) := by
      unfold RideWithGPSClient.get_sync
      rw [hreq]
      rfl
    rw [step, e1, e2]
    rfl
  · intro meta hp
    have e1 : jGet meta "pagination" (.obj []) = .obj [] :=
      jGet_of_memKey_false meta "pagination" _ hp
    unfold RideWithGPSClient._parse_pagination
    rw [e1]
    rfl
  · intro c r fuel h hnull
    simp [RideWithGPSClient.get_all_trips, drainPages, h, hnull, Json.isNull]
  · intro c r fuel h hnull
    simp [RideWithGPSClient.get_all_routes, drainPages, h, hnull, Json.isNull]

/-- C10 witness: against a server answering an empty JSON object,
`get_sync` returns the all-default `SyncResult`. -/
theorem c10_witness :
    cEmpty.get_sync "1970-01-01T00:00:00Z" "routes,trips" = .ok ⟨[], .str "", .null⟩ :=
  (c10_missing_key_defaults (.obj []) rfl rfl).1 cEmpty "1970-01-01T00:00:00Z"
    "routes,trips" "" rfl
